import Mathlib

/-!
Verification of the record-normalization and geometry-validation pipeline of
the Hampstead planning/heritage checker: a shallow embedding of
`scripts/data_ingestion/utils.py`, `ingest_listed_buildings.py` and
`ingest_conservation_areas.py`.

Python values flowing through the transformers are modelled by the `Value`
type (JSON-like data), Python truthiness by `pyTruthy`, the `a or b` idiom by
`pyOr`, `str(x)` by `pyStr`, and `float(x)` by `pyFloat`.  A Python function
that can raise an exception which the caller catches (turning it into `None`)
is embedded as an `Option`-returning function where the exceptional paths
return `none`.

The external shapely library (`shape`, `is_valid`, `make_valid`, `is_empty`,
`mapping`, `.area`, `.wkt`) is not part of this repository; it is modelled as
a parameter (`ShapelyModel`), so every theorem about the geometry pipeline
holds for an arbitrary interpretation of the library, with library facts the
spec relies on taken as explicit hypotheses.  A simple concrete
instantiation (`SimpleGeo`) is used to evaluate the pipeline on concrete
inputs.
-/

/-- An exact rational with an unnormalized `num/den` representation
(`den` is positive in every value the pipeline builds).  Python's binary
floats are modelled by exact rationals; all decimal literals appearing in
the pipeline (bounding-box corners, coordinates) compare identically under
either semantics.  Unlike Mathlib's `ℚ`, the operations below are free of
gcd normalization and therefore reduce inside the kernel. -/
structure Frac : Type where
  num : Int
  den : Nat
deriving DecidableEq

instance : OfNat Frac n := ⟨⟨n, 1⟩⟩

def Frac.mul (a b : Frac) : Frac := ⟨a.num * b.num, a.den * b.den⟩

def Frac.neg (a : Frac) : Frac := ⟨-a.num, a.den⟩

/-- Comparison by cross-multiplication (sound when both denominators are
positive, which holds for every number the pipeline manipulates). -/
def Frac.le (a b : Frac) : Bool := decide (a.num * (b.den : Int) ≤ b.num * (a.den : Int))

/-- Is this rational zero? (Python float truthiness.) -/
def Frac.isZero (a : Frac) : Bool := decide (a.num = 0)

/-- A Python/JSON value as it appears in the raw feature dictionaries:
`None`, booleans, numbers (modelled as exact rationals), strings, lists and
string-keyed dictionaries. -/
inductive Value : Type where
  | null : Value
  | bool : Bool → Value
  | num : Frac → Value
  | str : String → Value
  | list : List Value → Value
  | dict : List (String × Value) → Value

/-- Python truthiness (`bool(x)`): `None`, `False`, `0`, `""`, `[]`, and
empty dicts are falsy; everything else is truthy. -/
def pyTruthy : Value → Bool
  | .null => false
  | .bool b => b
  | .num q => !q.isZero
  | .str s => decide (s ≠ "")
  | .list xs => !xs.isEmpty
  | .dict es => !es.isEmpty

/-- The Python `a or b` expression: returns `a` when `a` is truthy,
otherwise `b` (as a value, not a boolean). -/
def pyOr (a b : Value) : Value := if pyTruthy a then a else b

/-- The Python `x is None` test. -/
def isNullV : Value → Bool
  | .null => true
  | _ => false

/-- `properties.get(k)`: look a key up in a dictionary's entry list,
returning Python `None` (our `Value.null`) when the key is absent. -/
def getV (props : List (String × Value)) (k : String) : Value :=
  (props.lookup k).getD .null

/-- `properties.get(k, d)`: dictionary lookup with explicit default. -/
def getVD (props : List (String × Value)) (k : String) (d : Value) : Value :=
  (props.lookup k).getD d

/-- `v.get(k)` on a value: dictionary lookup when the value is a dict.
(On a non-dict value Python raises; call sites handle that case.) -/
def Value.get : Value → String → Option Value
  | .dict es, k => es.lookup k
  | _, _ => none

/-- ASCII lowercase for a character (kernel-reducible). -/
def lowerChar (c : Char) : Char :=
  if 'A' ≤ c && c ≤ 'Z' then Char.ofNat (c.toNat + 32) else c

/-- ASCII uppercase for a character (kernel-reducible). -/
def upperChar (c : Char) : Char :=
  if 'a' ≤ c && c ≤ 'z' then Char.ofNat (c.toNat - 32) else c

/-- Python `str.lower()` (ASCII behaviour). -/
def lowerStr (s : String) : String := ⟨s.data.map lowerChar⟩

/-- Python `str.strip()`: drop leading and trailing whitespace. -/
def pyStrip (s : String) : String :=
  ⟨((s.data.dropWhile Char.isWhitespace).reverse.dropWhile Char.isWhitespace).reverse⟩

/-- Does `needle` occur as an initial run of `hay`? (Helper for Python's
substring test.) -/
def charsStart : List Char → List Char → Bool
  | [], _ => true
  | _ :: _, [] => false
  | n :: ns, h :: hs => n = h && charsStart ns hs

/-- Does `needle` occur anywhere inside `hay`? -/
def charsContain : List Char → List Char → Bool
  | needle, [] => needle.isEmpty
  | needle, h :: hs => charsStart needle (h :: hs) || charsContain needle hs

/-- Python's `needle in hay` substring test on strings. -/
def strContains (hay needle : String) : Bool := charsContain needle.data hay.data

/-- Helper for Python `str.title()`: capitalize a letter that follows a
non-letter, lowercase a letter that follows a letter. -/
def pyTitleAux : Bool → List Char → List Char
  | _, [] => []
  | prevAlpha, c :: cs =>
    (if c.isAlpha then (if prevAlpha then lowerChar c else upperChar c) else c)
      :: pyTitleAux c.isAlpha cs

/-- Python `str.title()` (ASCII behaviour). -/
def pyTitle (s : String) : String := ⟨pyTitleAux false s.data⟩

-- utils.py lines 119-126
def TARGET_BOROUGHS : List String :=
  ["Camden", "Barnet", "Westminster", "Haringey", "Brent", "Islington"]

/-- utils.py lines 136-141: `is_target_borough`.  Empty string is falsy and
rejected; otherwise the stripped, title-cased borough is matched (lowercased)
against each target name (lowercased) by substring containment. -/
def is_target_borough (borough : String) : Bool :=
  if borough = "" then false
  else
    let borough_clean := pyTitle (pyStrip borough)
    TARGET_BOROUGHS.any (fun target => strContains (lowerStr borough_clean) (lowerStr target))

example : is_target_borough "LB Camden" = true := by decide
example : is_target_borough "camden" = true := by decide
example : is_target_borough "Liverpool" = false := by decide
example : is_target_borough "" = false := by decide

/-- The single-quote character, used by Python `repr` of strings. -/
def sQuote : String := String.singleton (Char.ofNat 39)

/-- Rendering of a number under Python `str`/`repr`: JSON integers print as
Python ints; other rationals are rendered as `num/den` (an approximation of
Python's float formatting; no claim depends on that rendering). -/
def ratStr (q : Frac) : String :=
  if q.den = 1 then toString q.num else toString q.num ++ "/" ++ toString q.den

/-- Worker for Python `repr`, structurally recursive on a fuel bound so that
it reduces inside the kernel (recursion over the nested `Value` inductive
would otherwise be compiled by well-founded recursion).  The fuel strictly
exceeds the size of every value a feature dictionary can realistically hold;
it only bounds rendering depth and no theorem depends on the cut-off. -/
def pyReprF : ℕ → Value ⊕ (List Value ⊕ List (String × Value)) → String
  | 0, _ => ""
  | _ + 1, .inl .null => "None"
  | _ + 1, .inl (.bool b) => if b then "True" else "False"
  | _ + 1, .inl (.num q) => ratStr q
  | _ + 1, .inl (.str s) => sQuote ++ s ++ sQuote
  | n + 1, .inl (.list xs) => "[" ++ pyReprF n (.inr (.inl xs)) ++ "]"
  | n + 1, .inl (.dict es) => "\x7b" ++ pyReprF n (.inr (.inr es)) ++ "\x7d"
  | _ + 1, .inr (.inl []) => ""
  | n + 1, .inr (.inl [v]) => pyReprF n (.inl v)
  | n + 1, .inr (.inl (v :: rest)) =>
    pyReprF n (.inl v) ++ ", " ++ pyReprF n (.inr (.inl rest))
  | _ + 1, .inr (.inr []) => ""
  | n + 1, .inr (.inr [(k, v)]) => pyReprF n (.inl (.str k)) ++ ": " ++ pyReprF n (.inl v)
  | n + 1, .inr (.inr ((k, v) :: rest)) =>
    pyReprF n (.inl (.str k)) ++ ": " ++ pyReprF n (.inl v) ++ ", " ++
      pyReprF n (.inr (.inr rest))

/-- Python `repr(x)` for the modelled values (ASCII approximation: strings
are single-quoted without escaping; dicts render as `\x7b'k': v, ...\x7d`). -/
def pyRepr (v : Value) : String := pyReprF 1000000 (.inl v)

/-- Python `str(x)`: like `repr` except that a string renders as itself. -/
def pyStr : Value → String
  | .str s => s
  | v => pyRepr v

/-- Numeric value of a run of ASCII digits. -/
def natOfDigits (cs : List Char) : ℕ := cs.foldl (fun a c => 10 * a + (c.toNat - 48)) 0

/-- Python `float(s)` on a string, for plain decimal literals: optional
whitespace and sign, then digits with an optional fractional part.
Exponent/inf/nan forms are not modelled and are treated as a parse failure
(which the transformers' `except` blocks turn into a rejection). -/
def pyFloatOfString (s : String) : Option Frac :=
  let cs := (pyStrip s).data
  let signAndRest : Int × List Char :=
    match cs with
    | '-' :: rest => (-1, rest)
    | '+' :: rest => (1, rest)
    | _ => (1, cs)
  let sign := signAndRest.1
  let cs1 := signAndRest.2
  let intPart := cs1.takeWhile Char.isDigit
  let rest := cs1.dropWhile Char.isDigit
  match rest with
  | [] => if intPart.isEmpty then none else some ⟨sign * natOfDigits intPart, 1⟩
  | '.' :: rest2 =>
    let frac := rest2.takeWhile Char.isDigit
    let rest3 := rest2.dropWhile Char.isDigit
    if rest3.isEmpty && !(intPart.isEmpty && frac.isEmpty) then
      some ⟨sign * (natOfDigits intPart * 10 ^ frac.length + natOfDigits frac), 10 ^ frac.length⟩
    else none
  | _ => none

/-- Python `float(x)` on a value: numbers pass through, booleans become 0/1,
strings are parsed; `None`, lists and dicts raise (modelled as `none`, which
the transformers' `except` blocks turn into a rejection). -/
def pyFloat : Value → Option Frac
  | .num q => some q
  | .bool b => some (if b then 1 else 0)
  | .str s => pyFloatOfString s
  | _ => none

example : pyFloat (.str " 51.5 ") = some ⟨515, 10⟩ := by decide
example : pyFloat (.str "abc") = none := by decide
example : pyStr .null = "None" := by decide
example : pyStr (.num 0) = "0" := by decide

/-!
### Shared date parser (utils.py lines 212-241)

`parse_date` tries six `datetime.strptime` formats in a fixed order and
returns the first successful parse as an ISO date string.  `strptime` is part
of the Python standard library; it is embedded following CPython's
`_strptime` implementation: each format compiles to a case-insensitive
regular expression (`%Y` = exactly four digits; `%m` = `1[0-2]|0[1-9]|[1-9]`;
`%d` = `3[01]|[12]\d|0[1-9]|[1-9]`; `%B` = a full month name; a whitespace
run in the format matches one or more whitespace characters), `re.match`
returns the first match in backtracking order, `_strptime` raises unless that
match spans the whole input, and constructing the `datetime` raises
`ValueError` for a day that does not exist in the month (which `parse_date`
catches, moving on to the next format).
-/

/-- Candidate parses of a token, in regular-expression backtracking order:
each entry is a parsed value paired with the remaining input. -/
abbrev TokCands := List (ℕ × List Char)

/-- `%Y`: exactly four digits. -/
def pYear (s : List Char) : TokCands :=
  match s with
  | c1 :: c2 :: c3 :: c4 :: rest =>
    if c1.isDigit && c2.isDigit && c3.isDigit && c4.isDigit then
      [(1000 * (c1.toNat - 48) + 100 * (c2.toNat - 48) + 10 * (c3.toNat - 48) + (c4.toNat - 48),
        rest)]
    else []
  | _ => []

/-- `%m`: the alternatives `1[0-2]`, `0[1-9]`, `[1-9]` in order. -/
def pMonthNum (s : List Char) : TokCands :=
  (match s with
   | c1 :: c2 :: rest =>
     if c1 = '1' && '0' ≤ c2 && c2 ≤ '2' then [(10 + (c2.toNat - 48), rest)] else []
   | _ => []) ++
  (match s with
   | c1 :: c2 :: rest =>
     if c1 = '0' && '1' ≤ c2 && c2 ≤ '9' then [(c2.toNat - 48, rest)] else []
   | _ => []) ++
  (match s with
   | c1 :: rest =>
     if '1' ≤ c1 && c1 ≤ '9' then [(c1.toNat - 48, rest)] else []
   | _ => [])

/-- `%d`: the alternatives `3[01]`, `[12]\d`, `0[1-9]`, `[1-9]` in order. -/
def pDayNum (s : List Char) : TokCands :=
  (match s with
   | c1 :: c2 :: rest =>
     if c1 = '3' && ('0' ≤ c2 && c2 ≤ '1') then [(30 + (c2.toNat - 48), rest)] else []
   | _ => []) ++
  (match s with
   | c1 :: c2 :: rest =>
     if ('1' ≤ c1 && c1 ≤ '2') && c2.isDigit then
       [(10 * (c1.toNat - 48) + (c2.toNat - 48), rest)]
     else []
   | _ => []) ++
  (match s with
   | c1 :: c2 :: rest =>
     if c1 = '0' && '1' ≤ c2 && c2 ≤ '9' then [(c2.toNat - 48, rest)] else []
   | _ => []) ++
  (match s with
   | c1 :: rest =>
     if '1' ≤ c1 && c1 ≤ '9' then [(c1.toNat - 48, rest)] else []
   | _ => [])

/-- Full month names (lowercase), indexed 1..12; no name is an initial run of
another, so at most one alternative of `%B` matches. -/
def monthNames : List (ℕ × String) :=
  [(1, "january"), (2, "february"), (3, "march"), (4, "april"), (5, "may"),
   (6, "june"), (7, "july"), (8, "august"), (9, "september"), (10, "october"),
   (11, "november"), (12, "december")]

/-- Consume `name` case-insensitively from the front of `s`. -/
def consumeCaseless : List Char → List Char → Option (List Char)
  | [], s => some s
  | _ :: _, [] => none
  | n :: ns, c :: cs => if lowerChar c = n then consumeCaseless ns cs else none

/-- `%B`: a full month name, case-insensitively. -/
def pMonthName (s : List Char) : TokCands :=
  monthNames.filterMap (fun p => (consumeCaseless p.2.data s).map (fun rest => (p.1, rest)))

/-- A whitespace run in the format (`\s+`): one or more whitespace
characters, consumed maximally (no later token of these formats can match a
whitespace character, so maximal munch agrees with the regex). -/
def pWs (s : List Char) : List (List Char) :=
  match s with
  | c :: rest => if c.isWhitespace then [rest.dropWhile Char.isWhitespace] else []
  | [] => []

/-- A literal character of the format. -/
def pLit (c : Char) (s : List Char) : List (List Char) :=
  match s with
  | x :: rest => if x = c then [rest] else []
  | [] => []

/-- Candidate full parses (year, month, day) for `"%Y-%m-%d"`. -/
def candsIsoYmd (s : List Char) : List ((ℕ × ℕ × ℕ) × List Char) := do
  let (y, s) ← pYear s
  let s ← pLit '-' s
  let (m, s) ← pMonthNum s
  let s ← pLit '-' s
  let (d, s) ← pDayNum s
  pure ((y, m, d), s)

/-- Candidate parses for `"%d/%m/%Y"`. -/
def candsDmySlash (s : List Char) : List ((ℕ × ℕ × ℕ) × List Char) := do
  let (d, s) ← pDayNum s
  let s ← pLit '/' s
  let (m, s) ← pMonthNum s
  let s ← pLit '/' s
  let (y, s) ← pYear s
  pure ((y, m, d), s)

/-- Candidate parses for `"%d-%m-%Y"`. -/
def candsDmyDash (s : List Char) : List ((ℕ × ℕ × ℕ) × List Char) := do
  let (d, s) ← pDayNum s
  let s ← pLit '-' s
  let (m, s) ← pMonthNum s
  let s ← pLit '-' s
  let (y, s) ← pYear s
  pure ((y, m, d), s)

/-- Candidate parses for `"%Y/%m/%d"`. -/
def candsYmdSlash (s : List Char) : List ((ℕ × ℕ × ℕ) × List Char) := do
  let (y, s) ← pYear s
  let s ← pLit '/' s
  let (m, s) ← pMonthNum s
  let s ← pLit '/' s
  let (d, s) ← pDayNum s
  pure ((y, m, d), s)

/-- Candidate parses for `"%d %B %Y"`. -/
def candsDMonY (s : List Char) : List ((ℕ × ℕ × ℕ) × List Char) := do
  let (d, s) ← pDayNum s
  let s ← pWs s
  let (m, s) ← pMonthName s
  let s ← pWs s
  let (y, s) ← pYear s
  pure ((y, m, d), s)

/-- Candidate parses for `"%B %d, %Y"`. -/
def candsMonDY (s : List Char) : List ((ℕ × ℕ × ℕ) × List Char) := do
  let (m, s) ← pMonthName s
  let s ← pWs s
  let (d, s) ← pDayNum s
  let s ← pLit ',' s
  let s ← pWs s
  let (y, s) ← pYear s
  pure ((y, m, d), s)

/-- The six formats of utils.py lines 225-232, in source order. -/
inductive DateFmt : Type where
  | isoYmd | dmySlash | dmyDash | ymdSlash | dMonY | monDY
deriving DecidableEq

def dateFormats : List DateFmt :=
  [.isoYmd, .dmySlash, .dmyDash, .ymdSlash, .dMonY, .monDY]

def strptimeCands : DateFmt → List Char → List ((ℕ × ℕ × ℕ) × List Char)
  | .isoYmd => candsIsoYmd
  | .dmySlash => candsDmySlash
  | .dmyDash => candsDmyDash
  | .ymdSlash => candsYmdSlash
  | .dMonY => candsDMonY
  | .monDY => candsMonDY

/-- `re.match` semantics: take the first match in backtracking order;
`_strptime` then raises unless it consumed the whole input (it does not go
back to look for a different, full-length match). -/
def firstFullMatch (cands : List ((ℕ × ℕ × ℕ) × List Char)) : Option (ℕ × ℕ × ℕ) :=
  match cands with
  | [] => none
  | (v, rest) :: _ => if rest.isEmpty then some v else none

def isLeapYear (y : ℕ) : Bool := y % 4 = 0 && (y % 100 ≠ 0 || y % 400 = 0)

def daysInMonth (y m : ℕ) : ℕ :=
  if m = 2 then (if isLeapYear y then 29 else 28)
  else if m = 4 || m = 6 || m = 9 || m = 11 then 30 else 31

/-- The `datetime` constructor's validation: the year must lie in 1..9999 and
the day must exist in the month. -/
def validYMD (y m d : ℕ) : Bool :=
  1 ≤ y && y ≤ 9999 && 1 ≤ m && m ≤ 12 && 1 ≤ d && d ≤ daysInMonth y m

/-- `datetime.strptime(s, fmt).date()`: the parsed calendar date, or `none`
(a raised `ValueError`) when the format does not match the whole input or the
date does not exist. -/
def strptimeValid (f : DateFmt) (s : String) : Option (ℕ × ℕ × ℕ) :=
  match firstFullMatch (strptimeCands f s.data) with
  | some (y, m, d) => if validYMD y m d then some (y, m, d) else none
  | none => none

def pad2 (n : ℕ) : String := if n < 10 then "0" ++ toString n else toString n

def pad4 (n : ℕ) : String :=
  if n < 10 then "000" ++ toString n
  else if n < 100 then "00" ++ toString n
  else if n < 1000 then "0" ++ toString n
  else toString n

/-- `date.isoformat()`: `YYYY-MM-DD` with zero padding. -/
def isoOfYMD (y m d : ℕ) : String := pad4 y ++ "-" ++ pad2 m ++ "-" ++ pad2 d

/-- The `for fmt in formats` loop of utils.py lines 234-238: return the first
format that parses, rendered as an ISO date. -/
def tryFormats : List DateFmt → String → Option String
  | [], _ => none
  | f :: fs, s =>
    match strptimeValid f s with
    | some (y, m, d) => some (isoOfYMD y m d)
    | none => tryFormats fs s

/-- utils.py lines 212-241: `parse_date`.  The argument is the value that the
transformers pass in (`properties.get(...) or properties.get(...)`).  The
outer `Option` models exceptions that `parse_date` does not catch (calling
`.strip()` on a truthy non-string raises `AttributeError`, which propagates
to the transformer's own `except` block); the inner `Option` is the
function's `None`-or-ISO-string result. -/
def parse_date (v : Value) : Option (Option String) :=
  if pyTruthy v = false then some none
  else
    match v with
    | .str s => some (tryFormats dateFormats (pyStrip s))
    | _ => none

example : parse_date (.str "1967-01-01") = some (some "1967-01-01") := by decide
example : parse_date (.str "01/03/1968") = some (some "1968-03-01") := by decide
example : parse_date (.str "not a date") = some none := by decide
example : parse_date (.str "5 March 1990") = some (some "1990-03-05") := by decide
example : parse_date (.str "March 5, 1990") = some (some "1990-03-05") := by decide
example : parse_date (.str "31/02/2020") = some none := by decide
example : parse_date .null = some none := by decide
example : parse_date (.num 5) = none := by decide

/-!
### Geometry validation (utils.py lines 52-115)

The shapely primitives used by `validate_geometry` belong to an external
library, so they are modelled as an abstract interface: `PG` is shapely's
internal planar-geometry type, `shape` parses a GeoJSON dictionary (raising,
i.e. `none`, on malformed input), and `mapping` serializes back to GeoJSON.
Theorems over an arbitrary `ShapelyModel` hold for every interpretation of
the library.
-/

/-- The shapely operations used by the pipeline. -/
structure ShapelyModel (PG : Type) : Type where
  shape : Value → Option PG
  is_valid : PG → Bool
  make_valid : PG → PG
  is_empty : PG → Bool
  mapping : PG → Value
  area : PG → Frac
  wkt : PG → String

/-- utils.py lines 52-77: `validate_geometry`.  Parse the geometry (`none`
when `shape` raises, caught by the `except` block), repair it with
`make_valid` when it is not simple-feature-valid, reject it (`none`) when it
is empty after that step, and otherwise return its GeoJSON `mapping`.  The
`try/except` wrapper makes the function total: every failure mode is a
`none` result, an exception never escapes to the caller. -/
def validate_geometry {PG : Type} (M : ShapelyModel PG) (geom : Value) : Option Value :=
  match M.shape geom with
  | none => none
  | some sg =>
    let sg2 := if M.is_valid sg then sg else M.make_valid sg
    if M.is_empty sg2 then none else some (M.mapping sg2)

/-- utils.py lines 100-115: `ensure_multipolygon`.  A geometry whose declared
type is `Polygon` is promoted by wrapping its coordinate structure in a
one-element `MultiPolygon` collection; any other geometry is returned
unchanged.  The `Option` result models the `KeyError` raised on a dictionary
without the accessed key (propagating to the caller's `except` block). -/
def ensure_multipolygon (geom : Value) : Option Value :=
  match geom.get "type" with
  | none => none
  | some (.str s) =>
    if s = "Polygon" then
      match geom.get "coordinates" with
      | none => none
      | some c =>
        some (.dict [("type", .str "MultiPolygon"), ("coordinates", .list [c])])
    else some geom
  | some _ => some geom

/-- A concrete instantiation of the shapely interface used to evaluate the
pipeline on concrete inputs: the planar-geometry type is the GeoJSON value
itself, parsing accepts exactly the `Point`/`Polygon`/`MultiPolygon`
dictionaries carrying a `coordinates` entry, every parsed geometry counts as
valid (as the real library reports for the simple rectangles used below),
repair is the identity, and a geometry is empty when its coordinate list is
empty. -/
def simpleShape (g : Value) : Option Value :=
  match g.get "type", g.get "coordinates" with
  | some (.str t), some _ =>
    if t = "Point" || t = "Polygon" || t = "MultiPolygon" then some g else none
  | _, _ => none

def simpleEmpty (g : Value) : Bool :=
  match g.get "coordinates" with
  | some (.list (_ :: _)) => false
  | _ => true

def SimpleGeo : ShapelyModel Value where
  shape := simpleShape
  is_valid := fun _ => true
  make_valid := id
  is_empty := simpleEmpty
  mapping := id
  area := fun _ => 0
  wkt := fun _ => "GEOMETRY"

/-!
### Conservation-area transformer (ingest_conservation_areas.py lines 184-301)
-/

/-- The canonical conservation-area record built at
ingest_conservation_areas.py lines 283-297.  The source stores the boundary
only as its WKT serialization (`shape(validated_geom).wkt`); the embedding
additionally keeps the serialized geometry dictionary itself in `boundary`
so that geometry-level properties can be stated. -/
structure CARecord : Type where
  name : Value
  reference : Value
  borough : String
  designation_date : Option String
  boundary : Value
  boundary_wkt : String
  area_hectares : Option Frac
  description : Value
  character_appraisal_url : Value
  management_plan_url : Value
  has_article_4 : Value
  article_4_restrictions : Value
  article_4_date : Option String
  data_source : Value

-- ingest_conservation_areas.py lines 224-231
def borough_map : List (String × String) :=
  [("LB Camden", "Camden"), ("LB Barnet", "Barnet"),
   ("City of Westminster", "Westminster"), ("LB Haringey", "Haringey"),
   ("LB Brent", "Brent"), ("LB Islington", "Islington")]

/-- ingest_conservation_areas.py lines 214-297, from the borough extraction
onward (everything after the geometry has been validated and promoted).
`vg2` is the validated, promoted geometry.  A non-string truthy borough value
makes `is_target_borough` raise (`none`); a falsy chain result is always the
final `''` default.  The two `parse_date` calls and the un-guarded
`shape(validated_geom)` at line 288 can raise, rejecting the record. -/
def ca_build {PG : Type} (M : ShapelyModel PG) (props : List (String × Value))
    (vg2 : Value) : Option CARecord :=
  let boroughV := pyOr (getV props "borough") (pyOr (getV props "Borough")
    (pyOr (getV props "LOCAL_AUTHORITY") (pyOr (getV props "LocalAuthority") (.str ""))))
  match boroughV with
  | .str b0 =>
    let borough := (borough_map.lookup b0).getD b0
    if is_target_borough borough then
      let name := pyOr (getV props "CA_NAME") (pyOr (getV props "name")
        (pyOr (getV props "Name") (pyOr (getV props "NAME")
          (pyOr (getV props "conservation_area_name") (.str "Unknown Conservation Area")))))
      let reference := pyOr (getV props "CA_REF") (pyOr (getV props "reference")
        (pyOr (getV props "REF") (pyOr (getV props "ca_id") .null)))
      -- lines 257-263: area in hectares from planar area in squared degrees,
      -- `shapely_geom.area * 111319.9 * 111319.9 / 10000`; the bare `except`
      -- turns a `shape` failure into a null area.
      let area_hectares : Option Frac :=
        (M.shape vg2).map (fun pg =>
          (((M.area pg).mul ⟨1113199, 10⟩).mul ⟨1113199, 10⟩).mul ⟨1, 10000⟩)
      -- lines 266-271: the `or` chain keeps the first truthy property value,
      -- falling back to the serialized-properties substring test.
      let has_article_4 := pyOr (getVD props "has_article_4" (.bool false))
        (pyOr (getVD props "ARTICLE_4" (.bool false))
          (pyOr (getVD props "article4" (.bool false))
            (.bool (strContains (lowerStr (pyStr (.dict props))) "article 4"))))
      let article_4_restrictions :=
        if pyTruthy has_article_4 then
          let raw := pyOr (getV props "article_4_restrictions") (getV props "A4_RESTRICTIONS")
          if pyTruthy raw then
            match raw with
            | .list xs => Value.list xs
            | .str s => Value.list (((s.splitOn ",").map (fun r => Value.str (pyStrip r))))
            | _ => Value.null
          else Value.null
        else Value.null
      match parse_date (pyOr (getV props "designation_date") (getV props "DATE_DESIGNATED")),
            parse_date (pyOr (getV props "article_4_date") (getV props "A4_DATE")),
            M.shape vg2 with
      | some dd, some a4d, some pg =>
        some { name := name
               reference := reference
               borough := borough
               designation_date := dd
               boundary := vg2
               boundary_wkt := M.wkt pg
               area_hectares := area_hectares
               description := pyOr (getV props "description") (getV props "DESCRIPTION")
               character_appraisal_url :=
                 pyOr (getV props "character_appraisal_url") (getV props "CA_URL")
               management_plan_url := getV props "management_plan_url"
               has_article_4 := has_article_4
               article_4_restrictions := article_4_restrictions
               article_4_date := a4d
               data_source := getVD props "data_source" (.str "london_datastore") }
      | _, _, _ => none
    else none
  | _ => none

/-- `feature.get('geometry')` for a feature value. -/
def ca_geometry (feature : Value) : Option Value :=
  match feature with
  | .dict fes => fes.lookup "geometry"
  | _ => none

/-- ingest_conservation_areas.py lines 184-301: `transform_ca_record`.
Missing or falsy geometry rejects; `validate_geometry` failure rejects; a
falsy validated dictionary rejects; a validated type other than `Polygon` or
`MultiPolygon` rejects; a `Polygon` is promoted via `ensure_multipolygon`.
A `properties` entry that is not a dictionary makes every surviving path
raise at its first `properties.get` (including the logging call at line
199), so it is embedded as an unconditional rejection. -/
def ca_props_gate {PG : Type} (M : ShapelyModel PG) (propsV vg2 : Value) :
    Option CARecord :=
  match propsV with
  | .dict props => ca_build M props vg2
  | _ => none

def transform_ca_record {PG : Type} (M : ShapelyModel PG) (feature : Value) :
    Option CARecord :=
  match feature with
  | .dict fes =>
    let propsV := (fes.lookup "properties").getD (.dict [])
    match fes.lookup "geometry" with
    | none => none
    | some geom =>
      if pyTruthy geom then
        match validate_geometry M geom with
        | none => none
        | some vg =>
          if pyTruthy vg then
            match vg.get "type" with
            | none => none
            | some (.str t) =>
              if t = "Polygon" then
                match ensure_multipolygon vg with
                | none => none
                | some vg2 => ca_props_gate M propsV vg2
              -- line 210: `elif validated_geom['type'] not in ['MultiPolygon', 'Polygon']`
              else if t = "MultiPolygon" || t = "Polygon" then ca_props_gate M propsV vg
              else none
            | some _ => none
          else none
      else none
  | _ => none

/-!
### Listed-building transformer (ingest_listed_buildings.py lines 191-266)
-/

-- ingest_listed_buildings.py lines 50-55
def NW_MIN_LNG : Frac := ⟨-30, 100⟩
def NW_MAX_LNG : Frac := ⟨0, 100⟩
def NW_MIN_LAT : Frac := ⟨5150, 100⟩
def NW_MAX_LAT : Frac := ⟨5165, 100⟩

/-- Lines 219-220: membership of the NW-London bounding box, with inclusive
bounds on both coordinates. -/
def nwInBounds (lng lat : Frac) : Bool :=
  NW_MIN_LNG.le lng && lng.le NW_MAX_LNG && NW_MIN_LAT.le lat && lat.le NW_MAX_LAT

/-- The canonical listed-building record built at lines 246-262. -/
structure HERecord : Type where
  list_entry_number : String
  name : Value
  grade : String
  address_line_1 : Value
  address_line_2 : Value
  town : Value
  postcode : Value
  borough : String
  location : String
  list_date : Option String
  amended_date : Option String
  legacy_uid : Value
  documentation_url : Value
  data_source : String

-- lines 236-243
def grade_map : List (String × String) :=
  [("I", "I"), ("II*", "II*"), ("II", "II"), ("2*", "II*"), ("2", "II"), ("1", "I")]

/-- Line 244: `grade_map.get(str(grade_raw).strip(), 'II')`. -/
def gradeOf (s : String) : String := (grade_map.lookup s).getD "II"

/-- Lines 206-216: coordinate extraction.  A truthy geometry whose declared
type is `Point` supplies the pair (a missing `coordinates` key or a
non-2-element structure raises, hence `none`); otherwise the named property
fields are probed through truthiness-based `or` chains and the record is
rejected when either chain resolves to Python `None`.  A truthy non-dict
geometry raises at `geometry.get` (`none`). -/
def he_coords (props : List (String × Value)) (geomOpt : Option Value) :
    Option (Value × Value) :=
  let fallback : Option (Value × Value) :=
    let lngV := pyOr (getV props "Longitude") (pyOr (getV props "longitude")
      (getV props "Easting"))
    let latV := pyOr (getV props "Latitude") (pyOr (getV props "latitude")
      (getV props "Northing"))
    if isNullV lngV || isNullV latV then none else some (lngV, latV)
  match geomOpt with
  | some g =>
    if pyTruthy g then
      match g with
      | .dict ges =>
        match ges.lookup "type" with
        | some (.str t) =>
          if t = "Point" then
            match ges.lookup "coordinates" with
            | some (.list [a, b]) => some (a, b)
            | _ => none
          else fallback
        | _ => fallback
      | _ => none
    else fallback
  | none => fallback

/-- Lines 234-262: grade normalization and record construction, after the
borough check has passed with the stored `borough` string.  The two
`parse_date` calls can raise on a truthy non-string date value, rejecting
the record. -/
def he_build (props : List (String × Value)) (lngV latV : Value) (borough : String) :
    Option HERecord :=
  let grade_raw := pyOr (getV props "Grade") (pyOr (getV props "grade") (.str "II"))
  let grade := gradeOf (pyStrip (pyStr grade_raw))
  match parse_date (pyOr (getV props "ListDate") (getV props "DateListed")),
        parse_date (pyOr (getV props "AmendDate") (getV props "DateAmended")) with
  | some list_date, some amended_date =>
    some { list_entry_number := pyStr (pyOr (getV props "ListEntry")
             (pyOr (getV props "list_entry") (getV props "ListEntryNumber")))
           name := pyOr (getV props "Name") (pyOr (getV props "name") (.str "Unknown"))
           grade := grade
           address_line_1 := pyOr (getV props "Location")
             (pyOr (getV props "Address") (getV props "address"))
           address_line_2 := pyOr (getV props "Address2") .null
           town := pyOr (getV props "Town") (pyOr (getV props "PostTown") (.str "London"))
           postcode := pyOr (getV props "Postcode") (getV props "postcode")
           borough := borough
           location := "POINT(" ++ pyStr lngV ++ " " ++ pyStr latV ++ ")"
           list_date := list_date
           amended_date := amended_date
           legacy_uid := pyOr (getV props "LegacyUID") (getV props "legacy_uid")
           documentation_url := pyOr (getV props "Hyperlink") (getV props "URL")
           data_source := "historic_england" }
  | _, _ => none

/-- Lines 201-262 given resolved properties and geometry: coordinates, the
bounding-box filter (a `float()` failure raises, hence `none`), then the
borough gate of lines 224-232: a truthy borough must pass
`is_target_borough` (raising, hence `none`, when it is not a string); a
falsy chain result is the final `''` default and is carried through. -/
def transform_he_props (props : List (String × Value)) (geomOpt : Option Value) :
    Option HERecord :=
  match he_coords props geomOpt with
  | none => none
  | some (lngV, latV) =>
    match pyFloat lngV, pyFloat latV with
    | some lng, some lat =>
      if nwInBounds lng lat then
        let boroughV := pyOr (getV props "LocalAuthority") (pyOr (getV props "District")
          (pyOr (getV props "Borough") (.str "")))
        if pyTruthy boroughV then
          match boroughV with
          | .str bs => if is_target_borough bs then he_build props lngV latV bs else none
          | _ => none
        else he_build props lngV latV ""
      else none
    | _, _ => none

/-- ingest_listed_buildings.py lines 191-266: `transform_he_record`.
`record.get('properties', record)` accepts both GeoJSON features and flat
property dictionaries; a non-dict record or a non-dict `properties` value
makes every surviving path raise at its first `properties.get`, so it is
embedded as an unconditional rejection. -/
def transform_he_record (record : Value) : Option HERecord :=
  match record with
  | .dict res =>
    let propsV := (res.lookup "properties").getD record
    match propsV with
    | .dict props => transform_he_props props (res.lookup "geometry")
    | _ => none
  | _ => none

/-!
### Progress tracker (utils.py lines 244-263)
-/

/-- The counters of `ProgressTracker` (the logging fields are elided: the
start time and periodic log output never influence the counters). -/
structure ProgressTracker : Type where
  total : ℕ
  processed : ℕ
  success : ℕ
  failed : ℕ
  skipped : ℕ

/-- utils.py lines 247-254: a fresh tracker. -/
def ProgressTracker.init (total : ℕ) : ProgressTracker :=
  { total := total, processed := 0, success := 0, failed := 0, skipped := 0 }

/-- utils.py lines 256-263: `increment(success, skipped)` bumps `processed`
and exactly one outcome counter, `skipped` taking precedence. -/
def ProgressTracker.increment (t : ProgressTracker) (success skipped : Bool) :
    ProgressTracker :=
  { t with
    processed := t.processed + 1
    skipped := if skipped then t.skipped + 1 else t.skipped
    success := if !skipped && success then t.success + 1 else t.success
    failed := if !skipped && !success then t.failed + 1 else t.failed }

/-!
### Concrete sample inputs (used to evaluate the transformers)
-/

/-- A `Point` geometry at (-0.1, 51.55), inside the NW-London box. -/
def heSamplePointGeom : Value :=
  .dict [("type", .str "Point"),
         ("coordinates", .list [.num ⟨-1, 10⟩, .num ⟨5155, 100⟩])]

def heSampleCamdenProps : List (String × Value) :=
  [("LocalAuthority", .str "Camden"), ("Name", .str "Fenton House"),
   ("ListEntry", .num 123456), ("Grade", .str "2*")]

/-- A fully regular listed-building feature in Camden with grade `2*`. -/
def heSampleCamden : Value :=
  .dict [("properties", .dict heSampleCamdenProps), ("geometry", heSamplePointGeom)]

def heNoBoroughProps : List (String × Value) :=
  [("Name", .str "Fenton House"), ("ListEntry", .num 123456)]

/-- A feature inside the box carrying no borough property at all. -/
def heNoBorough : Value :=
  .dict [("properties", .dict heNoBoroughProps), ("geometry", heSamplePointGeom)]

def heLiverpoolProps : List (String × Value) :=
  [("LocalAuthority", .str "Liverpool"), ("Name", .str "Fenton House"),
   ("ListEntry", .num 123456), ("Grade", .str "2*")]

/-- A feature whose point is inside the box but whose borough is not a
target borough. -/
def heLiverpool : Value :=
  .dict [("properties", .dict heLiverpoolProps), ("geometry", heSamplePointGeom)]

/-- A `Point` geometry at (10.0, 40.0), far outside the box. -/
def heFarGeom : Value :=
  .dict [("type", .str "Point"), ("coordinates", .list [.num 10, .num 40])]

/-- A feature with perfect fields whose point is at (10.0, 40.0). -/
def heFarAway : Value :=
  .dict [("properties", .dict heSampleCamdenProps), ("geometry", heFarGeom)]

/-- Properties giving coordinates (5, 10) through the named fields only. -/
def heOutsideProps : List (String × Value) :=
  [("Longitude", .num 5), ("Latitude", .num 10), ("Name", .str "Somewhere")]

def heZeroEntryProps : List (String × Value) :=
  [("LocalAuthority", .str "Camden"), ("Name", .str "Fenton House"),
   ("ListEntryNumber", .num 0)]

/-- An accepted feature whose only list-entry key holds the falsy number 0. -/
def heZeroEntry : Value :=
  .dict [("properties", .dict heZeroEntryProps), ("geometry", heSamplePointGeom)]

def heNoEntryProps : List (String × Value) :=
  [("LocalAuthority", .str "Camden"), ("Name", .str "Fenton House")]

/-- An accepted feature carrying none of the three list-entry keys. -/
def heNoEntry : Value :=
  .dict [("properties", .dict heNoEntryProps), ("geometry", heSamplePointGeom)]

def heC9aProps : List (String × Value) :=
  [("Longitude", .num 0), ("Latitude", .num ⟨516, 10⟩),
   ("LocalAuthority", .str "Camden"), ("Name", .str "Fenton House")]

/-- A feature with no geometry whose `Longitude` property is the falsy
number 0.0 and whose `Latitude` is 51.6 — the point (0.0, 51.6) lies inside
the bounding box. -/
def heC9a : Value := .dict [("properties", .dict heC9aProps)]

def heC9bProps : List (String × Value) :=
  [("Name", .str ""), ("LocalAuthority", .str "Camden")]

/-- An accepted feature whose `Name` property is present but empty. -/
def heC9b : Value :=
  .dict [("properties", .dict heC9bProps), ("geometry", heSamplePointGeom)]

/-- A rectangle `Polygon` geometry over Hampstead. -/
def samplePolygonGeom : Value :=
  .dict [("type", .str "Polygon"),
         ("coordinates", .list [.list
           [.list [.num ⟨-185, 1000⟩, .num ⟨5552, 100⟩],
            .list [.num ⟨-185, 1000⟩, .num ⟨5565, 100⟩],
            .list [.num ⟨-168, 1000⟩, .num ⟨5565, 100⟩],
            .list [.num ⟨-168, 1000⟩, .num ⟨5552, 100⟩],
            .list [.num ⟨-185, 1000⟩, .num ⟨5552, 100⟩]]])]

def caSampleProps : List (String × Value) :=
  [("name", .str "Hampstead"), ("borough", .str "Camden"), ("reference", .str "CA1")]

/-- A regular conservation-area feature with a `Polygon` boundary. -/
def caSample : Value :=
  .dict [("properties", .dict caSampleProps), ("geometry", samplePolygonGeom)]

example : (transform_he_record heSampleCamden).map (fun r => r.grade) = some "II*" := by rfl
example : (transform_he_record heSampleCamden).map (fun r => r.borough) = some "Camden" := by
  rfl
example : (transform_he_record heNoBorough).map (fun r => r.borough) = some "" := by rfl
example : transform_he_record heLiverpool = none := by rfl
example : transform_he_record heFarAway = none := by rfl
example : transform_he_props heOutsideProps none = none := by rfl
example : (transform_he_record heZeroEntry).map (fun r => r.list_entry_number) =
    some "0" := by rfl
example : (transform_he_record heNoEntry).map (fun r => r.list_entry_number) =
    some "None" := by rfl
example : transform_he_record heC9a = none := by rfl
example : (transform_he_record heC9b).map (fun r => r.name) =
    some (Value.str "Unknown") := by rfl
example : (transform_ca_record SimpleGeo caSample).map (fun r => r.borough) =
    some "Camden" := by rfl
example : (transform_ca_record SimpleGeo caSample).map (fun r => r.boundary.get "type") =
    some (some (Value.str "MultiPolygon")) := by rfl

/-!
### Helper lemmas
-/

/-- Any record produced by `ca_build` stores the promoted geometry it was
given and a borough that passes the target check. -/
theorem ca_build_some {PG : Type} (M : ShapelyModel PG) (props : List (String × Value))
    (vg2 : Value) (rec : CARecord) (h : ca_build M props vg2 = some rec) :
    rec.boundary = vg2 ∧ is_target_borough rec.borough = true := by
  simp only [ca_build] at h
  split at h
  next b0 heq =>
    split at h
    next htarget =>
      split at h
      next dd a4d pg hdd ha4 hpg =>
        cases h
        exact ⟨rfl, htarget⟩
      next => exact absurd h (by simp)
    next => exact absurd h (by simp)
  next => exact absurd h (by simp)

/-- Any record produced by `he_build` carries the borough it was given, the
normalized grade, the stringified list-entry chain and the name chain. -/
theorem he_build_some (props : List (String × Value)) (lngV latV : Value)
    (borough : String) (rec : HERecord) (h : he_build props lngV latV borough = some rec) :
    rec.borough = borough ∧
    rec.grade =
      gradeOf (pyStrip (pyStr (pyOr (getV props "Grade")
        (pyOr (getV props "grade") (.str "II"))))) ∧
    rec.list_entry_number =
      pyStr (pyOr (getV props "ListEntry")
        (pyOr (getV props "list_entry") (getV props "ListEntryNumber"))) ∧
    rec.name = pyOr (getV props "Name") (pyOr (getV props "name") (.str "Unknown")) := by
  simp only [he_build] at h
  split at h
  next ld ad hld had =>
    cases h
    exact ⟨rfl, rfl, rfl, rfl⟩
  next => exact absurd h (by simp)

/-- Inversion for `transform_he_props`: an accepted record comes out of
`he_build` with a borough that is either the carried-through empty default
or a string passing the target check. -/
theorem transform_he_props_some (props : List (String × Value)) (geomOpt : Option Value)
    (rec : HERecord) (h : transform_he_props props geomOpt = some rec) :
    ∃ lngV latV borough, he_build props lngV latV borough = some rec ∧
      (borough = "" ∨ is_target_borough borough = true) := by
  simp only [transform_he_props] at h
  split at h
  next => exact absurd h (by simp)
  next lngV latV hcoords =>
    split at h
    next lng lat hlng hlat =>
      split at h
      next hbounds =>
        split at h
        next htruthy =>
          split at h
          next bs heq =>
            split at h
            next htarget => exact ⟨lngV, latV, bs, h, Or.inr htarget⟩
            next => exact absurd h (by simp)
          next => exact absurd h (by simp)
        next => exact ⟨lngV, latV, "", h, Or.inl rfl⟩
      next => exact absurd h (by simp)
    next => exact absurd h (by simp)

/-- The `for fmt in formats` loop is the first-hit search over the format
list. -/
theorem tryFormats_eq_findSome (fs : List DateFmt) (s : String) :
    tryFormats fs s = fs.findSome? (fun f =>
      (strptimeValid f s).map (fun ymd => isoOfYMD ymd.1 ymd.2.1 ymd.2.2)) := by
  induction fs with
  | nil => rfl
  | cons f fs ih =>
    rcases h : strptimeValid f s with _ | ⟨y, m, d⟩ <;>
      simp [tryFormats, List.findSome?, h, ih]

/-!
### Claims
-/

/-- C3: `validate_geometry` is total over arbitrary geometry dictionaries —
the embedding returns an `Option` and no exception escapes — and it returns
nothing exactly when parsing fails outright or the geometry is empty (after
the conditional repair step), so an empty geometry is never accepted for
storage. -/
theorem C3_validate_geometry_total {PG : Type} (M : ShapelyModel PG) (geom : Value) :
    validate_geometry M geom = none ↔
      (M.shape geom = none ∨
        ∃ sg, M.shape geom = some sg ∧
          M.is_empty (if M.is_valid sg then sg else M.make_valid sg) = true) := by
  unfold validate_geometry
  rcases h : M.shape geom with _ | sg
  · simp
  · rcases he : M.is_empty (if M.is_valid sg then sg else M.make_valid sg) with _ | _ <;>
      simp [he]

/-- C3 witness: a malformed geometry (a bare string) fails the parse and is
rejected by `validate_geometry`. -/
theorem C3_witness : validate_geometry SimpleGeo (Value.str "nonsense") = none :=
  (C3_validate_geometry_total SimpleGeo (Value.str "nonsense")).mpr (Or.inl rfl)

/-- C5: `parse_date` tries the six fixed formats (ISO `YYYY-MM-DD`,
`DD/MM/YYYY`, `DD-MM-YYYY`, `YYYY/MM/DD`, `DD Month YYYY`, `Month DD, YYYY`)
in that order and returns the first successful parse rendered as an ISO date,
and returns nothing on empty/None input or when no format matches; in
particular `parse_date("1967-01-01") = "1967-01-01"`,
`parse_date("01/03/1968") = "1968-03-01"`, and
`parse_date("not a date")` is nothing. -/
theorem C5_parse_date_formats :
    parse_date (Value.str "1967-01-01") = some (some "1967-01-01") ∧
    parse_date (Value.str "01/03/1968") = some (some "1968-03-01") ∧
    parse_date (Value.str "not a date") = some none ∧
    parse_date Value.null = some none ∧
    parse_date (Value.str "") = some none ∧
    (∀ s : String, parse_date (Value.str s) =
      some (dateFormats.findSome? (fun f =>
        (strptimeValid f (pyStrip s)).map (fun ymd => isoOfYMD ymd.1 ymd.2.1 ymd.2.2)))) := by
  refine ⟨by decide, by decide, by decide, by decide, by decide, fun s => ?_⟩
  by_cases hs : s = ""
  · subst hs; rfl
  · simp only [parse_date, pyTruthy, decide_eq_false_iff_not, Decidable.not_not,
      decide_eq_true_eq]
    rw [if_neg (by simpa using hs)]
    rw [tryFormats_eq_findSome]

/-- C9: the truthiness-based `or` chains treat present-but-falsy property
values as absent — a feature with no `Point` geometry whose properties give
`Longitude = 0.0` and `Latitude = 51.6` is rejected at the coordinate step
(the `Longitude` value is falsy, so the chain resolves to `None`) even
though the point (0.0, 51.6) lies inside the bounding box; and a
present-but-empty `Name` falls through to the default `"Unknown"`. -/
theorem C9_falsy_values_treated_absent :
    transform_he_record heC9a = none ∧
    he_coords heC9aProps none = none ∧
    pyTruthy (getV heC9aProps "Longitude") = false ∧
    nwInBounds 0 ⟨516, 10⟩ = true ∧
    getV heC9bProps "Name" = Value.str "" ∧
    (transform_he_record heC9b).map (fun r => r.name) = some (Value.str "Unknown") :=
  ⟨rfl, rfl, rfl, rfl, rfl, rfl⟩

/-- C10: each `ProgressTracker.increment` call raises `processed` by one and
exactly one of the three outcome counters by one, with `skipped` taking
precedence over the `success` flag, and after any sequence of increments the
invariant `processed = success + failed + skipped` holds. -/
theorem C10_progress_tracker_invariant :
    (∀ (t : ProgressTracker) (success skipped : Bool),
      (t.increment success skipped).processed = t.processed + 1 ∧
      (t.increment success skipped).skipped =
        (if skipped then t.skipped + 1 else t.skipped) ∧
      (t.increment success skipped).success =
        (if !skipped && success then t.success + 1 else t.success) ∧
      (t.increment success skipped).failed =
        (if !skipped && !success then t.failed + 1 else t.failed)) ∧
    (∀ (total : ℕ) (calls : List (Bool × Bool)),
      (calls.foldl (fun t c => t.increment c.1 c.2) (ProgressTracker.init total)).processed =
        (calls.foldl (fun t c => t.increment c.1 c.2) (ProgressTracker.init total)).success +
        (calls.foldl (fun t c => t.increment c.1 c.2) (ProgressTracker.init total)).failed +
        (calls.foldl (fun t c => t.increment c.1 c.2) (ProgressTracker.init total)).skipped) := by
  constructor
  · intro t success skipped
    refine ⟨rfl, rfl, rfl, rfl⟩
  · intro total calls
    have aux : ∀ (cs : List (Bool × Bool)) (t : ProgressTracker),
        t.processed = t.success + t.failed + t.skipped →
        (cs.foldl (fun t c => t.increment c.1 c.2) t).processed =
          (cs.foldl (fun t c => t.increment c.1 c.2) t).success +
          (cs.foldl (fun t c => t.increment c.1 c.2) t).failed +
          (cs.foldl (fun t c => t.increment c.1 c.2) t).skipped := by
      intro cs
      induction cs with
      | nil => intro t h; simpa using h
      | cons c cs ih =>
        intro t h
        rcases c with ⟨s, k⟩
        apply ih
        cases s <;> cases k <;> simp [ProgressTracker.increment] <;> omega
    exact aux calls (ProgressTracker.init total) rfl

/-- Promoting a geometry declared `Polygon` yields one declared
`MultiPolygon`. -/
theorem ensure_multipolygon_polygon (vg vg2 : Value)
    (ht : vg.get "type" = some (Value.str "Polygon"))
    (h : ensure_multipolygon vg = some vg2) :
    vg2.get "type" = some (Value.str "MultiPolygon") := by
  simp only [ensure_multipolygon, ht, if_pos] at h
  rcases hc : vg.get "coordinates" with _ | c <;> rw [hc] at h
  · exact absurd h (by simp)
  · cases h; rfl

/-- A geometry not declared `Polygon` passes `ensure_multipolygon`
unchanged. -/
theorem ensure_multipolygon_keep (vg : Value) (t : String)
    (ht : vg.get "type" = some (Value.str t)) (hne : t ≠ "Polygon") :
    ensure_multipolygon vg = some vg := by
  simp only [ensure_multipolygon, ht]
  rw [if_neg hne]

/-- Inversion for `ca_props_gate`. -/
theorem ca_props_gate_some {PG : Type} (M : ShapelyModel PG) (propsV vg2 : Value)
    (rec : CARecord) (h : ca_props_gate M propsV vg2 = some rec) :
    ∃ props, propsV = Value.dict props ∧ ca_build M props vg2 = some rec := by
  unfold ca_props_gate at h
  split at h
  next props => exact ⟨props, rfl, h⟩
  next => exact absurd h (by simp)

/-- Inversion for `transform_ca_record`: an accepted record arises from a
feature dictionary with a truthy geometry that validates to a truthy
dictionary whose declared type survives the `Polygon`/`MultiPolygon`
dispatch, and the promoted geometry — always declared `MultiPolygon` — is
handed to `ca_build` together with the feature's properties. -/
theorem transform_ca_some {PG : Type} (M : ShapelyModel PG) (feature : Value)
    (rec : CARecord) (h : transform_ca_record M feature = some rec) :
    ∃ fes geom vg props vg2,
      feature = Value.dict fes ∧
      fes.lookup "geometry" = some geom ∧
      pyTruthy geom = true ∧
      validate_geometry M geom = some vg ∧
      pyTruthy vg = true ∧
      ensure_multipolygon vg = some vg2 ∧
      vg2.get "type" = some (Value.str "MultiPolygon") ∧
      ca_build M props vg2 = some rec := by
  simp only [transform_ca_record] at h
  split at h
  next fes =>
    split at h
    next => exact absurd h (by simp)
    next geom hgeom =>
      split at h
      next htruthy =>
        split at h
        next => exact absurd h (by simp)
        next vg hval =>
          split at h
          next htv =>
            split at h
            next => exact absurd h (by simp)
            next t htype =>
              split at h
              next hpoly =>
                split at h
                next => exact absurd h (by simp)
                next vg2 hens =>
                  obtain ⟨props, hpv, hbuild⟩ := ca_props_gate_some M _ vg2 rec h
                  subst hpoly
                  exact ⟨fes, geom, vg, props, vg2, rfl, hgeom, htruthy, hval, htv, hens,
                    ensure_multipolygon_polygon vg vg2 htype hens, hbuild⟩
              next hpoly =>
                split at h
                next hmp =>
                  obtain ⟨props, hpv, hbuild⟩ := ca_props_gate_some M _ vg rec h
                  have htmp : t = "MultiPolygon" := by
                    rcases Bool.or_eq_true_iff.mp hmp with h1 | h1
                    · exact of_decide_eq_true h1
                    · exact absurd (of_decide_eq_true h1) hpoly
                  subst htmp
                  exact ⟨fes, geom, vg, props, vg, rfl, hgeom, htruthy, hval, htv,
                    ensure_multipolygon_keep vg "MultiPolygon" htype (by decide), htype,
                    hbuild⟩
                next => exact absurd h (by simp)
            next => exact absurd h (by simp)
          next => exact absurd h (by simp)
      next => exact absurd h (by simp)
  next => exact absurd h (by simp)

/-- Inversion for `transform_he_record`: an accepted record arises from a
dictionary record via `transform_he_props` on the resolved properties. -/
theorem transform_he_record_some (record : Value) (rec : HERecord)
    (h : transform_he_record record = some rec) :
    ∃ res props, record = Value.dict res ∧
      (res.lookup "properties").getD record = Value.dict props ∧
      transform_he_props props (res.lookup "geometry") = some rec := by
  simp only [transform_he_record] at h
  split at h
  next res =>
    split at h
    next props hpv => exact ⟨res, props, rfl, hpv, h⟩
    next => exact absurd h (by simp)
  next => exact absurd h (by simp)

/-- C1: every record accepted by `transform_ca_record` carries a boundary
geometry declared `MultiPolygon`, never `Polygon`: a validated `Polygon` is
promoted by wrapping its coordinate structure in a one-element
`MultiPolygon` collection, a validated geometry declared neither `Polygon`
nor `MultiPolygon` is rejected, and the stored boundary is always the
(possibly promoted) validated geometry. -/
theorem C1_boundary_always_multipolygon {PG : Type} (M : ShapelyModel PG)
    (feature : Value) :
    (∀ rec, transform_ca_record M feature = some rec →
      rec.boundary.get "type" = some (Value.str "MultiPolygon")) ∧
    (∀ geom vg rec, ca_geometry feature = some geom →
      validate_geometry M geom = some vg →
      transform_ca_record M feature = some rec →
      ensure_multipolygon vg = some rec.boundary) ∧
    (∀ fes geom vg t, feature = Value.dict fes → fes.lookup "geometry" = some geom →
      pyTruthy geom = true → validate_geometry M geom = some vg →
      pyTruthy vg = true → vg.get "type" = some (Value.str t) →
      t ≠ "Polygon" → t ≠ "MultiPolygon" →
      transform_ca_record M feature = none) ∧
    (∀ g c, g.get "type" = some (Value.str "Polygon") → g.get "coordinates" = some c →
      ensure_multipolygon g =
        some (Value.dict [("type", Value.str "MultiPolygon"),
                          ("coordinates", Value.list [c])])) := by
  refine ⟨?_, ?_, ?_, ?_⟩
  · intro rec h
    obtain ⟨fes, geom, vg, props, vg2, hfeat, hgeom, htruthy, hval, htv, hens, htyp,
      hbuild⟩ := transform_ca_some M feature rec h
    rw [(ca_build_some M props vg2 rec hbuild).1]
    exact htyp
  · intro geom vg rec hgeom hval h
    obtain ⟨fes, geom', vg', props, vg2, hfeat, hgeom', htruthy, hval', htv, hens, htyp,
      hbuild⟩ := transform_ca_some M feature rec h
    subst hfeat
    simp only [ca_geometry] at hgeom
    rw [hgeom'] at hgeom
    cases hgeom
    rw [hval'] at hval
    cases hval
    rw [(ca_build_some M props vg2 rec hbuild).1]
    exact hens
  · intro fes geom vg t hfeat hgeom htruthy hval htv htype hnp hnm
    subst hfeat
    simp only [transform_ca_record, hgeom, htruthy, hval, htv, htype, if_true]
    rw [if_neg hnp, if_neg (by simp [hnp, hnm])]
  · intro g c htype hcoords
    simp only [ensure_multipolygon, htype, if_pos, hcoords]

/-- C1 witness: the sample conservation area with a `Polygon` boundary is
accepted and its stored boundary is declared `MultiPolygon`. -/
theorem C1_witness :
    (transform_ca_record SimpleGeo caSample).map (fun r => r.boundary.get "type") =
      some (some (Value.str "MultiPolygon")) := by
  obtain ⟨rec, hrec⟩ : ∃ r, transform_ca_record SimpleGeo caSample = some r := ⟨_, rfl⟩
  have h := (C1_boundary_always_multipolygon SimpleGeo caSample).1 rec hrec
  rw [hrec]
  show some (rec.boundary.get "type") = some (some (Value.str "MultiPolygon"))
  rw [h]

/-- C2 (amended): every record accepted by the conservation-area transformer
has a borough passing `is_target_borough` (a case-insensitive substring
match of the six target names against the stored raw string), and every
record accepted by the listed-building transformer has a borough that is
either the carried-through empty string (borough absent) or a string passing
`is_target_borough`.  The stored value is the raw property value, not the
title-cased target name. -/
theorem C2_borough_gate {PG : Type} (M : ShapelyModel PG) :
    (∀ feature rec, transform_ca_record M feature = some rec →
      is_target_borough rec.borough = true) ∧
    (∀ record rec, transform_he_record record = some rec →
      rec.borough = "" ∨ is_target_borough rec.borough = true) := by
  constructor
  · intro feature rec h
    obtain ⟨fes, geom, vg, props, vg2, hfeat, hgeom, htruthy, hval, htv, hens, htyp,
      hbuild⟩ := transform_ca_some M feature rec h
    exact (ca_build_some M props vg2 rec hbuild).2
  · intro record rec h
    obtain ⟨res, props, hfeat, hpv, hprops⟩ := transform_he_record_some record rec h
    obtain ⟨lngV, latV, borough, hbuild, hok⟩ :=
      transform_he_props_some props _ rec hprops
    rw [(he_build_some props lngV latV borough rec hbuild).1]
    exact hok

/-- C2 counterexample: a listed-building feature inside the bounding box
with no borough property at all is emitted with the empty-string borough,
which is not one of the six target boroughs — refuting the claim that every
emitted record's borough is one of the six. -/
theorem C2_counterexample :
    (transform_he_record heNoBorough).map (fun r => r.borough) = some "" ∧
    TARGET_BOROUGHS.contains "" = false := ⟨rfl, rfl⟩

/-- C2 witness: the sample conservation area and the sample Camden listed
building both satisfy the amended borough property. -/
theorem C2_witness :
    (transform_ca_record SimpleGeo caSample).map (fun r => is_target_borough r.borough) =
      some true ∧
    (transform_he_record heSampleCamden).map
      (fun r => decide (r.borough = "") || is_target_borough r.borough) = some true := by
  constructor
  · obtain ⟨rec, hrec⟩ : ∃ r, transform_ca_record SimpleGeo caSample = some r := ⟨_, rfl⟩
    have h := (C2_borough_gate SimpleGeo).1 caSample rec hrec
    rw [hrec]
    show some (is_target_borough rec.borough) = some true
    rw [h]
  · obtain ⟨rec, hrec⟩ : ∃ r, transform_he_record heSampleCamden = some r := ⟨_, rfl⟩
    have h := (C2_borough_gate SimpleGeo).2 heSampleCamden rec hrec
    rw [hrec]
    show some (decide (rec.borough = "") || is_target_borough rec.borough) = some true
    rcases h with h | h <;> simp [h]

/-- C4 (amended): whenever the extracted point (after `float` conversion)
falls outside the NW-London bounding box (longitude in [-0.30, 0.00],
latitude in [51.50, 51.65]) the listed-building transformer rejects the
feature, regardless of every other field; the point (-0.1, 51.55) passes the
bounding-box filter itself (the record may still be rejected by later
checks); the fully regular feature at (10.0, 40.0) is rejected. -/
theorem C4_bbox_filter :
    (∀ props geomOpt lngV latV lng lat,
      he_coords props geomOpt = some (lngV, latV) →
      pyFloat lngV = some lng → pyFloat latV = some lat →
      nwInBounds lng lat = false →
      transform_he_props props geomOpt = none) ∧
    nwInBounds ⟨-1, 10⟩ ⟨5155, 100⟩ = true ∧
    transform_he_record heFarAway = none := by
  refine ⟨?_, by decide, rfl⟩
  intro props geomOpt lngV latV lng lat hcoords hlng hlat hbounds
  simp only [transform_he_props, hcoords, hlng, hlat, hbounds]
  rw [if_neg (by simp [hbounds])]

/-- C4 witness: a feature whose property-derived coordinates are (5, 10) is
rejected by the bounding-box filter. -/
theorem C4_witness : transform_he_props heOutsideProps none = none :=
  C4_bbox_filter.1 heOutsideProps none (Value.num 5) (Value.num 10) 5 10 rfl rfl rfl rfl

/-- C4 counterexample: a feature whose extracted point (-0.1, 51.55) lies
inside the bounding box is still rejected (its borough is "Liverpool"), so
the transformer does not reject exactly when the point is outside the box. -/
theorem C4_counterexample :
    he_coords heLiverpoolProps (some heSamplePointGeom) =
      some (Value.num ⟨-1, 10⟩, Value.num ⟨5155, 100⟩) ∧
    nwInBounds ⟨-1, 10⟩ ⟨5155, 100⟩ = true ∧
    transform_he_record heLiverpool = none := ⟨rfl, by decide, rfl⟩

/-- C6: the emitted grade of every accepted listed-building record is
computed by mapping the stripped string form of the source grade token
through `grade_map` with default `"II"` — so `I`/`1` map to `I`, `II*`/`2*`
to `II*`, `II`/`2` to `II`, anything else (or an absent token) to `II` — and
the emitted grade is always one of I, II*, II. -/
theorem C6_grade_normalization :
    (∀ props geomOpt rec, transform_he_props props geomOpt = some rec →
      rec.grade = gradeOf (pyStrip (pyStr (pyOr (getV props "Grade")
        (pyOr (getV props "grade") (Value.str "II"))))) ∧
      (rec.grade = "I" ∨ rec.grade = "II*" ∨ rec.grade = "II")) ∧
    gradeOf "I" = "I" ∧ gradeOf "1" = "I" ∧ gradeOf "II*" = "II*" ∧
    gradeOf "2*" = "II*" ∧ gradeOf "II" = "II" ∧ gradeOf "2" = "II" ∧
    gradeOf "anything else" = "II" ∧
    (∀ s, gradeOf s = "I" ∨ gradeOf s = "II*" ∨ gradeOf s = "II") := by
  have hall : ∀ s, gradeOf s = "I" ∨ gradeOf s = "II*" ∨ gradeOf s = "II" := by
    intro s
    simp only [gradeOf, grade_map, List.lookup]
    repeat' split
    all_goals simp
  refine ⟨?_, by decide, by decide, by decide, by decide, by decide, by decide,
    by decide, hall⟩
  intro props geomOpt rec h
  obtain ⟨lngV, latV, borough, hbuild, hok⟩ := transform_he_props_some props geomOpt rec h
  have hg := (he_build_some props lngV latV borough rec hbuild).2.1
  exact ⟨hg, hg ▸ hall _⟩

/-- C6 witness: the sample Camden feature with source grade `"2*"` is
accepted with emitted grade `"II*"` (the spec's scenario). -/
theorem C6_witness :
    (transform_he_record heSampleCamden).map (fun r => r.grade) = some "II*" := by
  obtain ⟨rec, hrec⟩ : ∃ r,
      transform_he_props heSampleCamdenProps (some heSamplePointGeom) = some r := ⟨_, rfl⟩
  have h := (C6_grade_normalization.1 heSampleCamdenProps (some heSamplePointGeom)
    rec hrec).1
  show (transform_he_props heSampleCamdenProps (some heSamplePointGeom)).map
    (fun r => r.grade) = some "II*"
  rw [hrec]
  show some rec.grade = some "II*"
  rw [h]
  rfl

/-- C7: on a geometry that parses to an already-valid, non-empty shape, the
validator skips the repair step and — given shapely's round-trip property
`mapping (shape g) = g` as a hypothesis — returns the input geometry itself,
with the same coordinates. -/
theorem C7_repair_skipped_on_valid {PG : Type} (M : ShapelyModel PG) (geom : Value)
    (sg : PG) (hshape : M.shape geom = some sg) (hvalid : M.is_valid sg = true)
    (hne : M.is_empty sg = false) (hmap : M.mapping sg = geom) :
    validate_geometry M geom = some geom := by
  unfold validate_geometry
  rw [hshape]
  simp [hvalid, hne, hmap]

/-- C7 witness: the sample polygon is parsed, valid and non-empty under the
concrete geometry model, and `validate_geometry` returns it unchanged. -/
theorem C7_witness :
    validate_geometry SimpleGeo samplePolygonGeom = some samplePolygonGeom :=
  C7_repair_skipped_on_valid SimpleGeo samplePolygonGeom samplePolygonGeom
    rfl rfl rfl rfl

/-- C8 (amended): a listed-building feature that passes the coordinate,
bounding-box and borough checks is never rejected for lack of a list entry:
the emitted `list_entry_number` is `str()` of the value of the
`ListEntry`/`list_entry`/`ListEntryNumber` `or`-chain, which is the literal
string `"None"` exactly when the first two keys are falsy and the third is
absent or `None`; a present falsy value (such as the number 0) yields that
value's own string form instead. -/
theorem C8_list_entry_stringified :
    (∀ props geomOpt rec, transform_he_props props geomOpt = some rec →
      rec.list_entry_number = pyStr (pyOr (getV props "ListEntry")
        (pyOr (getV props "list_entry") (getV props "ListEntryNumber")))) ∧
    (∀ props, pyTruthy (getV props "ListEntry") = false →
      pyTruthy (getV props "list_entry") = false →
      getV props "ListEntryNumber" = Value.null →
      pyStr (pyOr (getV props "ListEntry")
        (pyOr (getV props "list_entry") (getV props "ListEntryNumber"))) = "None") := by
  constructor
  · intro props geomOpt rec h
    obtain ⟨lngV, latV, borough, hbuild, hok⟩ :=
      transform_he_props_some props geomOpt rec h
    exact (he_build_some props lngV latV borough rec hbuild).2.2.1
  · intro props h1 h2 h3
    simp [pyOr, h1, h2, h3, pyStr, pyRepr, pyReprF]

/-- C8 counterexample: a feature in which none of the three list-entry keys
is truthy (`ListEntryNumber` holds the falsy number 0) is accepted with
`list_entry_number = "0"`, not the literal string `"None"`. -/
theorem C8_counterexample :
    pyTruthy (getV heZeroEntryProps "ListEntry") = false ∧
    pyTruthy (getV heZeroEntryProps "list_entry") = false ∧
    pyTruthy (getV heZeroEntryProps "ListEntryNumber") = false ∧
    (transform_he_record heZeroEntry).map (fun r => r.list_entry_number) = some "0" :=
  ⟨rfl, rfl, rfl, rfl⟩

/-- C8 witness: the accepted feature with no list-entry key emits the
literal string `"None"`. -/
theorem C8_witness :
    (transform_he_record heNoEntry).map (fun r => r.list_entry_number) = some "None" := by
  obtain ⟨rec, hrec⟩ : ∃ r,
      transform_he_props heNoEntryProps (some heSamplePointGeom) = some r := ⟨_, rfl⟩
  have h1 := C8_list_entry_stringified.1 heNoEntryProps (some heSamplePointGeom) rec hrec
  have h2 := C8_list_entry_stringified.2 heNoEntryProps rfl rfl rfl
  show (transform_he_props heNoEntryProps (some heSamplePointGeom)).map
    (fun r => r.list_entry_number) = some "None"
  rw [hrec]
  show some rec.list_entry_number = some "None"
  rw [h1, h2]
